import Mathlib

/-!
Verification development for the telemetry ingestion pipeline of
UNL-Husker-Rocketry/Sensor-Dashboard-2024.

The repository has two dashboard variants:
* `src/main.py`    — USB link: a 29-byte little-endian binary frame is decoded
  into the global `packet` dict and appended to five 200-element plot windows
  (`pt_val_graph['press']`, `pt_val_graph['temp']`, `accel['x'|'y'|'z']`).
* `src/plotly_site.py` — serial link: a comma-separated ASCII line is decoded
  into `location[0]` and three 200-element acceleration windows.

Numeric values are embedded as exact rationals (`ℚ`); Python byte values are
embedded as `ℕ` (0–255), byte strings as `List Char`.
-/

/-- Time field of the decoded packet (`main.py` lines 189–194). -/
structure TimeStamp where
  hours : ℕ
  minutes : ℕ
  seconds : ℕ
  microseconds : ℕ
  deriving DecidableEq

/-- Acceleration triple of the decoded packet. -/
structure Accel where
  x : ℚ
  y : ℚ
  z : ℚ
  deriving DecidableEq

/-- The rocket's packet data (`main.py` dict `packet`). -/
structure Packet where
  time : TimeStamp
  latitude : ℚ
  longitude : ℚ
  altitude : ℤ
  temperature : ℚ
  pressure : ℚ
  acceleration : Accel
  deriving DecidableEq

/-- Python slice `bs[a:b]` on a list of byte values (total: short slices are
silently truncated, exactly as in Python). -/
def pySlice (bs : List ℕ) (a b : ℕ) : List ℕ :=
  (bs.drop a).take (b - a)

/-- Python `int.from_bytes(bs, "little")`. -/
def fromBytesLE (bs : List ℕ) : ℕ :=
  bs.foldr (fun b acc => b + 256 * acc) 0

/-- Python `int.from_bytes(bs, "little", signed=True)`: two's complement over
the actual length of `bs` (an empty slice yields 0, as in Python). -/
def fromBytesLEsigned (bs : List ℕ) : ℤ :=
  let u := fromBytesLE bs
  if 2 * u < 256 ^ bs.length then (u : ℤ) else (u : ℤ) - 256 ^ bs.length

/-- The packet construction of `update_data` (`main.py` lines 188–205).
Indexing `packet_bytes[0..2]` raises `IndexError` on a shorter input (embedded
as `none`); all remaining fields are read through Python slices, which never
raise and simply truncate, so no length validation happens beyond index 2. -/
def decodeFrame (bs : List ℕ) : Option Packet :=
  match bs[0]?, bs[1]?, bs[2]? with
  | some h, some m, some s =>
    some
      { time :=
          { hours := h, minutes := m, seconds := s,
            microseconds := fromBytesLE (pySlice bs 3 7) }
        latitude := (fromBytesLEsigned (pySlice bs 7 11) : ℚ) / 1000000
        longitude := (fromBytesLEsigned (pySlice bs 11 15) : ℚ) / 1000000
        altitude := fromBytesLEsigned (pySlice bs 15 19)
        temperature := (fromBytesLE (pySlice bs 19 21) : ℚ) / 10 - 5
        pressure := (fromBytesLE (pySlice bs 21 23) : ℚ) / 10
        acceleration :=
          { x := (fromBytesLEsigned (pySlice bs 23 25) : ℚ) / 20,
            y := (fromBytesLEsigned (pySlice bs 25 27) : ℚ) / 20,
            z := (fromBytesLEsigned (pySlice bs 27 29) : ℚ) / 20 } }
  | _, _, _ => none

/-- Python list slice `l[-n:]`: the most recent `n` entries (the whole list
when it is shorter than `n`). -/
def lastN (n : ℕ) (l : List ℚ) : List ℚ :=
  l.drop (l.length - n)

/-- One window update as performed by both dashboards: `w.append(v)` followed
by `w = w[-200:]` (`main.py` lines 207–219, `plotly_site.py` lines 149–155). -/
def windowAppend (w : List ℚ) (v : ℚ) : List ℚ :=
  lastN 200 (w ++ [v])

/-- Initial window contents: `[0.0] * 200`. -/
def window0 : List ℚ :=
  List.replicate 200 0

/-- Initial value of the global `packet` dict (`main.py` lines 29–46): all
fields zero except the latitude/longitude, which start at fixed coordinates. -/
def packet : Packet :=
  { time := { hours := 0, minutes := 0, seconds := 0, microseconds := 0 }
    latitude := 40806862 / 1000000
    longitude := -96681679 / 1000000
    altitude := 0
    temperature := 0
    pressure := 0
    acceleration := { x := 0, y := 0, z := 0 } }

/-- Mutable state touched by `update_data` in `main.py`: the current packet,
the pressure/temperature windows, and the three acceleration windows. -/
structure UsbState where
  packet : Packet
  press : List ℚ
  temp : List ℚ
  ax : List ℚ
  ay : List ℚ
  az : List ℚ
  deriving DecidableEq

/-- State of `main.py` at process start (lines 29–46, 70–74, 83–86). -/
def usbState0 : UsbState :=
  { packet := packet, press := window0, temp := window0,
    ax := window0, ay := window0, az := window0 }

/-- The full mutation performed by a successful `update_data` call: swap the
packet and append the five scalars to their windows (`main.py` 188–219). -/
def usbApply (st : UsbState) (p : Packet) : UsbState :=
  { packet := p
    press := windowAppend st.press p.pressure
    temp := windowAppend st.temp p.temperature
    ax := windowAppend st.ax p.acceleration.x
    ay := windowAppend st.ay p.acceleration.y
    az := windowAppend st.az p.acceleration.z }

/-- Result of one `update_data` tick: the state afterwards and whether an
exception escaped the callback (`raised = true` for the uncaught
`IndexError` of a frame shorter than 3 bytes). -/
structure UsbStepResult where
  state : UsbState
  raised : Bool
  deriving DecidableEq

/-- One tick of `update_data` (`main.py` lines 174–221). `acq = none` models a
USB transfer failure: the `try`/`except` catches it and returns `dash.no_update`
with no mutation. On acquired bytes the packet construction either raises
(state untouched, exception escapes — there is no `except` around it) or
fully replaces the packet and appends to all five windows. -/
def update_data (st : UsbState) (acq : Option (List ℕ)) : UsbStepResult :=
  match acq with
  | none => { state := st, raised := false }
  | some bs =>
    match decodeFrame bs with
    | none => { state := st, raised := true }
    | some p => { state := usbApply st p, raised := false }

/-- Repeated `update_data` ticks; the Dash interval fires again after a tick
even when the previous callback raised, so the state threads through. -/
def usbRun (st : UsbState) (acqs : List (Option (List ℕ))) : UsbState :=
  acqs.foldl (fun s a => (update_data s a).state) st

/-- The 29-byte frame of the binary-decoder scenario: hours=1, minutes=2,
seconds=3, micros=0, lat=40000000, lon=-96000000, altitude=500, temp_raw=150,
pressure_raw=10000, ax=20, ay=-20, az=0, all little-endian at the documented
offsets. -/
def frameC1 : List ℕ :=
  [1, 2, 3,
   0, 0, 0, 0,
   0, 90, 98, 2,
   0, 40, 71, 250,
   244, 1, 0, 0,
   150, 0,
   16, 39,
   20, 0,
   236, 255,
   0, 0]

/-- The sample the scenario expects the frame to decode to. -/
def sampleC1 : Packet :=
  { time := { hours := 1, minutes := 2, seconds := 3, microseconds := 0 }
    latitude := 40
    longitude := -96
    altitude := 500
    temperature := 10
    pressure := 1000
    acceleration := { x := 1, y := -1, z := 0 } }

/-- ASCII whitespace stripped by Python's `bytes.strip()`. -/
def isPySpace (c : Char) : Bool :=
  c = ' ' || c = '\t' || c = '\n' || c = '\r' || c = '\x0b' || c = '\x0c'

/-- Python `line.strip()` on the byte string of a serial line. -/
def pyStrip (l : List Char) : List Char :=
  ((l.dropWhile isPySpace).reverse.dropWhile isPySpace).reverse

/-- Python `line.split(b',')`: splitting the empty string yields one empty
field, every comma starts a new field. -/
def splitOnComma : List Char → List (List Char)
  | [] => [[]]
  | c :: rest =>
    match splitOnComma rest with
    | [] => [[]]
    | f :: fs => if c = ',' then [] :: f :: fs else (c :: f) :: fs

/-- Value of a digit list read in base 10 (`'0'` has code 48). -/
def digitsToNat (l : List Char) : ℕ :=
  l.foldl (fun a c => 10 * a + (c.toNat - 48)) 0

/-- Unsigned decimal literal: digits with at most one point and at least one
digit overall. This is the fragment of Python `float()` syntax the serial
frames use; exponent, `inf` and `nan` forms are not modelled. -/
def parseUnsignedDecimal (l : List Char) : Option ℚ :=
  let intPart := l.takeWhile Char.isDigit
  let rest := l.dropWhile Char.isDigit
  match rest with
  | [] => if intPart.isEmpty then none else some (digitsToNat intPart : ℚ)
  | '.' :: frac =>
    if frac.all Char.isDigit && !(intPart.isEmpty && frac.isEmpty) then
      some ((digitsToNat intPart : ℚ) + (digitsToNat frac : ℚ) / 10 ^ frac.length)
    else none
  | _ => none

/-- Python `float(field)` on a CSV field: surrounding whitespace is ignored,
an optional sign precedes an unsigned decimal literal; `none` embeds the
`ValueError` raised on a non-numeric field. -/
def pyFloat? (l : List Char) : Option ℚ :=
  match pyStrip l with
  | '-' :: r => (parseUnsignedDecimal r).map (fun q => -q)
  | '+' :: r => parseUnsignedDecimal r
  | t => parseUnsignedDecimal t

/-- Mutable state touched by `update_` in `plotly_site.py`: `location[0]` and
the three acceleration windows. -/
structure SerialState where
  lat : ℚ
  lon : ℚ
  ax : List ℚ
  ay : List ℚ
  az : List ℚ
  deriving DecidableEq

/-- State of `plotly_site.py` at process start (lines 23–25 and 49–53). -/
def serialState0 : SerialState :=
  { lat := 0, lon := 0, ax := window0, ay := window0, az := window0 }

/-- One tick of `update_` (`plotly_site.py` lines 123–161). `acq = none`
models a `readline()` failure caught by the first `try`. The early returns
mirror the source: the dead `line == "\n"` comparison, the empty-line check,
and the `len < 8` guard. Inside the second `try` the assignments happen in
source order, so a failure at a later field keeps the location fields already
assigned — each `none` branch returns the state exactly as mutated so far. -/
def update_ (st : SerialState) (acq : Option (List Char)) : SerialState :=
  match acq with
  | none => st
  | some raw =>
    let line := pyStrip raw
    if line = ['\n'] then st
    else if line = [] then st
    else if (splitOnComma line).length < 8 then st
    else
      match ((splitOnComma line)[1]?).bind pyFloat? with
      | none => st
      | some la =>
        match ((splitOnComma line)[2]?).bind pyFloat? with
        | none => { st with lat := la }
        | some lo =>
          match ((splitOnComma line)[6]?).bind pyFloat? with
          | none => { st with lat := la, lon := lo }
          | some x =>
            match ((splitOnComma line)[7]?).bind pyFloat? with
            | none => { st with lat := la, lon := lo }
            | some y =>
              match ((splitOnComma line)[8]?).bind pyFloat? with
              | none => { st with lat := la, lon := lo }
              | some z =>
                { lat := la, lon := lo,
                  ax := windowAppend st.ax x,
                  ay := windowAppend st.ay y,
                  az := windowAppend st.az z }

/-- Whether a serial line passes every check and parse of `update_`, i.e. the
frame decodes fully; `none` is any of the early-return (rejection) paths. -/
def serialParse (raw : List Char) : Option (ℚ × ℚ × ℚ × ℚ × ℚ) :=
  let line := pyStrip raw
  if line = ['\n'] then none
  else if line = [] then none
  else if (splitOnComma line).length < 8 then none
  else
    match ((splitOnComma line)[1]?).bind pyFloat?,
          ((splitOnComma line)[2]?).bind pyFloat?,
          ((splitOnComma line)[6]?).bind pyFloat?,
          ((splitOnComma line)[7]?).bind pyFloat?,
          ((splitOnComma line)[8]?).bind pyFloat? with
    | some la, some lo, some x, some y, some z => some (la, lo, x, y, z)
    | _, _, _, _, _ => none

/-- Repeated `update_` ticks of the serial dashboard. -/
def serialRun (st : SerialState) (acqs : List (Option (List Char))) : SerialState :=
  acqs.foldl update_ st

/-- The CSV line of the serial-decoder scenario. -/
def csvLineC5 : List Char := "0,40.1,-96.2,ignored,288.0,1013.0,0.1,-0.2,0.3".data

/-- Modelled from the spec: no serial variant in `src/` decodes temperature or
pressure; the spec documents a serial-format variant that assigns CSV field 4
to temperature adjusted by a constant offset and field 5 to pressure, with
field 4 = 288.0 yielding temperature 10.0, i.e. an offset of 278. -/
def specSerialTempPressure (fields : List (List Char)) : Option (ℚ × ℚ) :=
  match (fields[4]?).bind pyFloat?, (fields[5]?).bind pyFloat? with
  | some t, some p => some (t - 278, p)
  | _, _ => none

/-- A serial line whose fields 1 and 2 are numeric but whose field 6 is not. -/
def badLineC2 : List Char := "0,40.1,-96.2,a,b,c,oops,0,0".data

/-- A serial line with exactly 8 comma-separated fields. -/
def line8C4 : List Char := "0,40.1,-96.2,a,b,c,0.1,-0.2".data

/-- Another serial line whose location fields parse but whose later fields are
not numeric. -/
def failLineC7 : List Char := "0,41.5,-95.5,q,q,q,q,q,q".data

/-- The first 28 bytes of the scenario frame: one byte short of a full frame. -/
def frame28 : List ℕ :=
  [1, 2, 3,
   0, 0, 0, 0,
   0, 90, 98, 2,
   0, 40, 71, 250,
   244, 1, 0, 0,
   150, 0,
   16, 39,
   20, 0,
   236, 255,
   0]

/-- The successful path of `update_data` as the sequence of its individually
atomic mutations, in source order (`main.py` lines 188–219): the packet
assignment, then append and truncate for the pressure/temperature windows,
then append and truncate for the three acceleration windows. -/
def usbAtomicSteps (p : Packet) : List (UsbState → UsbState) :=
  [fun st => { st with packet := p },
   fun st => { st with press := st.press ++ [p.pressure] },
   fun st => { st with temp := st.temp ++ [p.temperature] },
   fun st => { st with press := lastN 200 st.press },
   fun st => { st with temp := lastN 200 st.temp },
   fun st => { st with ax := st.ax ++ [p.acceleration.x] },
   fun st => { st with ay := st.ay ++ [p.acceleration.y] },
   fun st => { st with az := st.az ++ [p.acceleration.z] },
   fun st => { st with ax := lastN 200 st.ax },
   fun st => { st with ay := lastN 200 st.ay },
   fun st => { st with az := lastN 200 st.az }]

/-- Every state a concurrent reader can observe while one `update_data` call
replaces the sample: the state before, after each atomic mutation, and after
the last one. -/
def observableStates (st : UsbState) (p : Packet) : List UsbState :=
  List.scanl (fun s f => f s) st (usbAtomicSteps p)

/-- A packet distinct from the initial one in every field. -/
def packetC9 : Packet :=
  { time := { hours := 9, minutes := 9, seconds := 9, microseconds := 9 }
    latitude := 41
    longitude := -95
    altitude := 1000
    temperature := 20
    pressure := 900
    acceleration := { x := 2, y := 2, z := 2 } }

theorem windowAppend_tail (w : List ℚ) (v : ℚ) (hw : w.length = 200) :
    windowAppend w v = w.drop 1 ++ [v] := by
  show (w ++ [v]).drop ((w ++ [v]).length - 200) = w.drop 1 ++ [v]
  rw [List.drop_append_eq_append_drop]
  have h1 : (w ++ [v]).length - 200 = 1 := by
    simp only [List.length_append, List.length_cons, List.length_nil]
    omega
  rw [h1, hw]
  norm_num

theorem windowAppend_length (w : List ℚ) (v : ℚ) (hw : w.length = 200) :
    (windowAppend w v).length = 200 := by
  rw [windowAppend_tail w v hw]
  simp only [List.length_append, List.length_cons, List.length_nil, List.length_drop]
  omega

theorem window0_length : window0.length = 200 := by
  rw [window0]
  exact List.length_replicate 200 0

theorem foldl_windowAppend (vs : List ℚ) : ∀ w : List ℚ, w.length = 200 →
    List.foldl windowAppend w vs = (w ++ vs).drop vs.length := by
  induction vs with
  | nil => intro w hw; simp
  | cons v t ih =>
    intro w hw
    rw [List.foldl_cons, ih _ (windowAppend_length w v hw),
      windowAppend_tail w v hw, List.append_assoc, List.singleton_append,
      List.length_cons]
    rw [List.drop_append_eq_append_drop, List.drop_append_eq_append_drop,
      List.drop_drop]
    have hd : (w.drop 1).length = 199 := by simp [hw]
    rw [hd, hw]
    congr 2
    omega

example (vs : List ℚ) :
    List.foldl windowAppend window0 vs
      = List.replicate (200 - vs.length) 0 ++ vs.drop (vs.length - 200) := by
  rw [foldl_windowAppend vs window0 window0_length]
  rw [window0, List.drop_append_eq_append_drop, List.drop_replicate]
  congr 2

theorem update__windows_cases (st : SerialState) (acq : Option (List Char)) :
    ((update_ st acq).ax = st.ax ∧ (update_ st acq).ay = st.ay ∧ (update_ st acq).az = st.az)
    ∨ ∃ la lo x y z, update_ st acq =
        { lat := la, lon := lo, ax := windowAppend st.ax x,
          ay := windowAppend st.ay y, az := windowAppend st.az z } := by
  cases acq with
  | none => exact Or.inl ⟨rfl, rfl, rfl⟩
  | some raw =>
    simp only [update_]
    split
    · exact Or.inl ⟨rfl, rfl, rfl⟩
    split
    · exact Or.inl ⟨rfl, rfl, rfl⟩
    split
    · exact Or.inl ⟨rfl, rfl, rfl⟩
    split
    · exact Or.inl ⟨rfl, rfl, rfl⟩
    split
    · exact Or.inl ⟨rfl, rfl, rfl⟩
    split
    · exact Or.inl ⟨rfl, rfl, rfl⟩
    split
    · exact Or.inl ⟨rfl, rfl, rfl⟩
    split
    · exact Or.inl ⟨rfl, rfl, rfl⟩
    exact Or.inr ⟨_, _, _, _, _, rfl⟩

theorem decodeFrame_short (bs : List ℕ) (h : bs.length < 3) :
    decodeFrame bs = none := by
  cases bs with
  | nil => rfl
  | cons a t =>
    cases t with
    | nil => rfl
    | cons b t2 =>
      cases t2 with
      | nil => rfl
      | cons c t3 =>
        simp only [List.length_cons] at h
        omega

theorem serialRun_none (M : ℕ) : ∀ st : SerialState,
    serialRun st (List.replicate M none) = st := by
  induction M with
  | zero => intro st; rfl
  | succ n ih =>
    intro st
    rw [List.replicate_succ]
    exact ih st

theorem usbRun_none (M : ℕ) : ∀ st : UsbState,
    usbRun st (List.replicate M none) = st := by
  induction M with
  | zero => intro st; rfl
  | succ n ih =>
    intro st
    rw [List.replicate_succ]
    exact ih st

theorem update_data_state_cases (st : UsbState) (acq : Option (List ℕ)) :
    (update_data st acq).state = st ∨
    ∃ p, (update_data st acq).state = usbApply st p := by
  cases acq with
  | none => exact Or.inl rfl
  | some bs =>
    cases hd : decodeFrame bs with
    | none => exact Or.inl (by simp [update_data, hd])
    | some p => exact Or.inr ⟨p, by simp [update_data, hd]⟩

set_option maxRecDepth 8000 in
theorem serialRun_window_lengths (acqs : List (Option (List Char))) :
    ∀ st : SerialState, st.ax.length = 200 → st.ay.length = 200 → st.az.length = 200 →
      (serialRun st acqs).ax.length = 200 ∧ (serialRun st acqs).ay.length = 200 ∧
      (serialRun st acqs).az.length = 200 := by
  induction acqs with
  | nil => intro st hx hy hz; exact ⟨hx, hy, hz⟩
  | cons a t ih =>
    intro st hx hy hz
    have hstep : (update_ st a).ax.length = 200 ∧ (update_ st a).ay.length = 200 ∧
        (update_ st a).az.length = 200 := by
      rcases update__windows_cases st a with ⟨h1, h2, h3⟩ | ⟨la, lo, x, y, z, heq⟩
      · exact ⟨h1 ▸ hx, h2 ▸ hy, h3 ▸ hz⟩
      · rw [heq]
        exact ⟨windowAppend_length _ _ hx, windowAppend_length _ _ hy,
          windowAppend_length _ _ hz⟩
    exact ih (update_ st a) hstep.1 hstep.2.1 hstep.2.2

set_option maxRecDepth 8000 in
theorem usbRun_window_lengths (acqs : List (Option (List ℕ))) :
    ∀ st : UsbState, st.press.length = 200 → st.temp.length = 200 →
      st.ax.length = 200 → st.ay.length = 200 → st.az.length = 200 →
      (usbRun st acqs).press.length = 200 ∧ (usbRun st acqs).temp.length = 200 ∧
      (usbRun st acqs).ax.length = 200 ∧ (usbRun st acqs).ay.length = 200 ∧
      (usbRun st acqs).az.length = 200 := by
  induction acqs with
  | nil => intro st h1 h2 h3 h4 h5; exact ⟨h1, h2, h3, h4, h5⟩
  | cons a t ih =>
    intro st h1 h2 h3 h4 h5
    have hstep : ((update_data st a).state.press.length = 200 ∧
        (update_data st a).state.temp.length = 200 ∧
        (update_data st a).state.ax.length = 200 ∧
        (update_data st a).state.ay.length = 200 ∧
        (update_data st a).state.az.length = 200) := by
      rcases update_data_state_cases st a with h | ⟨p, h⟩
      · rw [h]; exact ⟨h1, h2, h3, h4, h5⟩
      · rw [h]
        exact ⟨windowAppend_length _ _ h1, windowAppend_length _ _ h2,
          windowAppend_length _ _ h3, windowAppend_length _ _ h4,
          windowAppend_length _ _ h5⟩
    exact ih ((update_data st a).state) hstep.1 hstep.2.1 hstep.2.2.1
      hstep.2.2.2.1 hstep.2.2.2.2


/-- C1: the documented 29-byte binary frame (hours=1, minutes=2, seconds=3,
micros=0, lat=40000000 LE signed, lon=-96000000 LE signed, altitude=500,
temp_raw=150, pressure_raw=10000, ax=20, ay=-20, az=0) decodes to exactly
the sample {time:{1,2,3,0}, latitude:40, longitude:-96, altitude:500,
temperature:10, pressure:1000, acceleration:{1,-1,0}}, with the scalings
lat/lon ÷ 1e6, temperature raw/10 − 5, pressure raw/10, acceleration
raw/20. -/
theorem C1_binary_frame_scenario : decodeFrame frameC1 = some sampleC1 := by
  simp only [decodeFrame, frameC1, sampleC1]
  norm_num [pySlice, fromBytesLE, fromBytesLEsigned]

set_option maxRecDepth 8000 in
/-- C2, counterexample: the CSV line `"0,40.1,-96.2,a,b,c,oops,0,0"` fails to
parse (field 6 is not numeric, so `serialParse` rejects the frame), yet the
decoder call mutates the stored location — the claim that every parse failure
leaves the state exactly as before the call is false. -/
theorem C2_counterexample :
    serialParse badLineC2 = none ∧
    update_ serialState0 (some badLineC2) ≠ serialState0 := by
  refine ⟨by decide, fun h => ?_⟩
  have h0 : (update_ serialState0 (some badLineC2)).lat
      = ((40:ℕ):ℚ) + ((1:ℕ):ℚ) / 10 ^ (1:ℕ) := rfl
  rw [h] at h0
  norm_num [serialState0] at h0

/-- C2, amended: on any serial tick the acceleration windows are all-or-nothing
— either all three are exactly as before, or the frame decoded fully and all
three were appended; latitude and longitude, however, may already have been
updated when a later field fails to parse (see the counterexample). -/
theorem C2_amended (st : SerialState) (acq : Option (List Char)) :
    ((update_ st acq).ax = st.ax ∧ (update_ st acq).ay = st.ay ∧ (update_ st acq).az = st.az)
    ∨ ∃ la lo x y z, update_ st acq =
        { lat := la, lon := lo, ax := windowAppend st.ax x,
          ay := windowAppend st.ay y, az := windowAppend st.az z } :=
  update__windows_cases st acq

/-- C3, counterexample: a 28-byte input is not rejected by the binary decoder:
`update_data` decodes it (the missing byte merely shortens the last slice) and
mutates the state without raising; the empty input instead raises an uncaught
`IndexError`. Both refute rejection-without-mutation-or-crash for short
inputs. -/
theorem C3_counterexample :
    frame28.length = 28 ∧
    (update_data usbState0 (some frame28)).raised = false ∧
    (update_data usbState0 (some frame28)).state ≠ usbState0 ∧
    (update_data usbState0 (some [])).raised = true := by
  refine ⟨by decide, rfl, fun h => ?_, rfl⟩
  have h0 := congrArg (fun s => s.packet.altitude) h
  simp only at h0
  exact absurd h0 (by decide)

set_option maxRecDepth 8000 in
/-- C3, amended: the binary decoder performs no length validation. An input
shorter than 3 bytes raises an uncaught `IndexError` and leaves the state
unchanged, while any input with at least 3 bytes — including every length from
3 to 28 — decodes through truncated slices and fully mutates the state. -/
theorem C3_amended (st : UsbState) (bs : List ℕ) :
    (bs.length < 3 → update_data st (some bs) = ⟨st, true⟩) ∧
    (3 ≤ bs.length → ∃ p, decodeFrame bs = some p ∧
      update_data st (some bs) = ⟨usbApply st p, false⟩) := by
  constructor
  · intro h
    simp only [update_data, decodeFrame_short bs h]
  · intro h
    cases bs with
    | nil => simp at h
    | cons a t =>
      cases t with
      | nil => simp at h
      | cons b t2 =>
        cases t2 with
        | nil => simp at h
        | cons c t3 =>
          cases hd : decodeFrame (a :: b :: c :: t3) with
          | none => simp [decodeFrame] at hd
          | some p => exact ⟨p, rfl, by simp [update_data, hd]⟩

/-- C3, witness: the amended theorem applied at the one-byte input `[7]` and
at the 28-byte frame. -/
theorem C3_amended_witness :
    update_data usbState0 (some [7]) = ⟨usbState0, true⟩ ∧
    (update_data usbState0 (some frame28)).raised = false := by
  refine ⟨(C3_amended usbState0 [7]).1 (by decide), ?_⟩
  obtain ⟨p, hp, h2⟩ := (C3_amended usbState0 frame28).2 (by decide)
  rw [h2]

set_option maxRecDepth 8000 in
/-- C4, counterexample: a line with exactly 8 comma-separated fields passes the
`len < 8` guard of `update_`; latitude and longitude are then updated from
fields 1–2 before the missing field 8 aborts the decode, so the claim that
every line with fewer than 9 fields is rejected without mutation is false
(the acceleration windows do stay unchanged). -/
theorem C4_counterexample :
    (splitOnComma (pyStrip line8C4)).length = 8 ∧
    update_ serialState0 (some line8C4) ≠ serialState0 ∧
    (update_ serialState0 (some line8C4)).ax = serialState0.ax := by
  refine ⟨by decide, fun h => ?_, rfl⟩
  have h0 : (update_ serialState0 (some line8C4)).lat
      = ((40:ℕ):ℚ) + ((1:ℕ):ℚ) / 10 ^ (1:ℕ) := rfl
  rw [h] at h0
  norm_num [serialState0] at h0

/-- C4, amended: a serial line with fewer than 8 comma-separated fields is
rejected without any mutation; a line with exactly 8 fields escapes the length
guard and is rejected only at the missing ninth field, leaving the
acceleration windows unchanged (though the location may be updated, as the
counterexample shows). -/
theorem C4_amended (st : SerialState) (raw : List Char) :
    ((splitOnComma (pyStrip raw)).length < 8 → update_ st (some raw) = st) ∧
    ((splitOnComma (pyStrip raw)).length = 8 →
      (update_ st (some raw)).ax = st.ax ∧ (update_ st (some raw)).ay = st.ay ∧
      (update_ st (some raw)).az = st.az) := by
  constructor
  · intro h
    simp only [update_]
    split_ifs with h1 h2
    · rfl
    · rfl
    · rfl
  · intro h
    have h8 : (splitOnComma (pyStrip raw))[8]? = none :=
      List.getElem?_eq_none (by omega)
    simp only [update_, h8, Option.none_bind]
    split_ifs with h1 h2 h3
    all_goals try exact ⟨rfl, rfl, rfl⟩
    rcases hv1 : ((splitOnComma (pyStrip raw))[1]?).bind pyFloat? with _ | la
    · simp [hv1]
    rcases hv2 : ((splitOnComma (pyStrip raw))[2]?).bind pyFloat? with _ | lo
    · simp [hv1, hv2]
    rcases hv6 : ((splitOnComma (pyStrip raw))[6]?).bind pyFloat? with _ | x
    · simp [hv1, hv2, hv6]
    simp only [hv1, hv2, hv6]
    refine ⟨?_, ?_, ?_⟩ <;> (split <;> rfl)

/-- C4, witness: the amended theorem applied at the two-field line `"1,2"` and
at the 8-field line of the counterexample. -/
theorem C4_amended_witness :
    update_ serialState0 (some "1,2".data) = serialState0 ∧
    ((update_ serialState0 (some line8C4)).ax = serialState0.ax ∧
     (update_ serialState0 (some line8C4)).ay = serialState0.ay ∧
     (update_ serialState0 (some line8C4)).az = serialState0.az) :=
  ⟨(C4_amended serialState0 "1,2".data).1 (by decide),
   (C4_amended serialState0 line8C4).2 (by decide)⟩

set_option maxRecDepth 8000 in
/-- C5: the CSV line `"0,40.1,-96.2,ignored,288.0,1013.0,0.1,-0.2,0.3"`
decodes in `plotly_site.py` to latitude 40.1, longitude −96.2 and acceleration
(0.1, −0.2, 0.3) appended to the three windows; the temperature/pressure
mapping of the documented serial variant (absent from `src/`, modelled from
the spec) yields temperature 288.0 − 278 = 10.0 and pressure 1013.0. -/
theorem C5_csv_scenario :
    (update_ serialState0 (some csvLineC5)).lat = 401/10 ∧
    (update_ serialState0 (some csvLineC5)).lon = -(962/10) ∧
    (update_ serialState0 (some csvLineC5)).ax = windowAppend window0 (1/10) ∧
    (update_ serialState0 (some csvLineC5)).ay = windowAppend window0 (-(2/10)) ∧
    (update_ serialState0 (some csvLineC5)).az = windowAppend window0 (3/10) ∧
    specSerialTempPressure (splitOnComma (pyStrip csvLineC5)) = some (10, 1013) := by
  refine ⟨?_, ?_, ?_, ?_, ?_, ?_⟩
  · have h : (update_ serialState0 (some csvLineC5)).lat
        = ((40:ℕ):ℚ) + ((1:ℕ):ℚ) / 10 ^ (1:ℕ) := rfl
    rw [h]; norm_num
  · have h : (update_ serialState0 (some csvLineC5)).lon
        = -(((96:ℕ):ℚ) + ((2:ℕ):ℚ) / 10 ^ (1:ℕ)) := rfl
    rw [h]; norm_num
  · have h : (update_ serialState0 (some csvLineC5)).ax
        = windowAppend window0 (((0:ℕ):ℚ) + ((1:ℕ):ℚ) / 10 ^ (1:ℕ)) := rfl
    rw [h]; congr 1; norm_num
  · have h : (update_ serialState0 (some csvLineC5)).ay
        = windowAppend window0 (-(((0:ℕ):ℚ) + ((2:ℕ):ℚ) / 10 ^ (1:ℕ))) := rfl
    rw [h]; congr 1; norm_num
  · have h : (update_ serialState0 (some csvLineC5)).az
        = windowAppend window0 (((0:ℕ):ℚ) + ((3:ℕ):ℚ) / 10 ^ (1:ℕ)) := rfl
    rw [h]; congr 1; norm_num
  · have h : specSerialTempPressure (splitOnComma (pyStrip csvLineC5))
        = some ((((288:ℕ):ℚ) + ((0:ℕ):ℚ) / 10 ^ (1:ℕ)) - 278,
                ((1013:ℕ):ℚ) + ((0:ℕ):ℚ) / 10 ^ (1:ℕ)) := rfl
    rw [h]
    norm_num [Prod.ext_iff]

/-- C6: folding any sequence of appends into the 200-entry zero-initialized
sliding window leaves the remaining initial zeros followed by all appended
values while fewer than 200 have arrived, and exactly the last 200 appended
values in arrival order once more than 200 have arrived — both are instances
of this single equation, whose right side always has length 200. -/
theorem C6_sliding_window (vs : List ℚ) :
    List.foldl windowAppend window0 vs
      = List.replicate (200 - vs.length) 0 ++ vs.drop (vs.length - 200) := by
  rw [foldl_windowAppend vs window0 window0_length]
  rw [window0, List.drop_append_eq_append_drop, List.drop_replicate]
  congr 2

set_option maxRecDepth 8000 in
/-- C7, counterexample: a decode failure is not mutation-free: the line
`"0,41.5,-95.5,q,q,q,q,q,q"` is rejected by the parser (field 6 is not
numeric), yet a single poll-loop tick on it changes the stored location, so
after M = 1 consecutive failures the state does not equal the value observed
before. -/
theorem C7_counterexample :
    serialParse failLineC7 = none ∧
    serialRun serialState0 [some failLineC7] ≠ serialState0 := by
  refine ⟨by decide, fun h => ?_⟩
  have h0 : (serialRun serialState0 [some failLineC7]).lat
      = ((41:ℕ):ℚ) + ((5:ℕ):ℚ) / 10 ^ (1:ℕ) := rfl
  rw [h] at h0
  norm_num [serialState0] at h0

/-- C7, amended: after M consecutive acquisition (Link) failures, in either
dashboard, the state equals exactly the value observed before the failures
began; the claim's extension to decode failures is refuted by the
counterexample. -/
theorem C7_amended (sst : SerialState) (ust : UsbState) (M : ℕ) (hM : 0 < M) :
    serialRun sst (List.replicate M none) = sst ∧
    usbRun ust (List.replicate M none) = ust :=
  ⟨serialRun_none M sst, usbRun_none M ust⟩

/-- C7, witness: the amended theorem applied to two consecutive acquisition
failures from the initial states. -/
theorem C7_amended_witness :
    serialRun serialState0 (List.replicate 2 none) = serialState0 ∧
    usbRun usbState0 (List.replicate 2 none) = usbState0 :=
  C7_amended serialState0 usbState0 2 (by decide)

/-- C8, counterexample: the initial packet's latitude is 40.806862, not zero,
so the claim that every field of the initial sample is zero is false. -/
theorem C8_counterexample : packet.latitude ≠ 0 := by
  norm_num [packet]

set_option maxRecDepth 8000 in
/-- C8, amended: at process start the sample store holds zeros everywhere —
timestamp, altitude, temperature, pressure, acceleration, the serial
location, and all five windows (200 zero entries each) — except the USB
dashboard's initial latitude and longitude, which are the fixed coordinates
40.806862 and −96.681679. -/
theorem C8_amended :
    packet.time.hours = 0 ∧ packet.time.minutes = 0 ∧ packet.time.seconds = 0 ∧
    packet.time.microseconds = 0 ∧ packet.altitude = 0 ∧ packet.temperature = 0 ∧
    packet.pressure = 0 ∧ packet.acceleration.x = 0 ∧ packet.acceleration.y = 0 ∧
    packet.acceleration.z = 0 ∧ packet.latitude = 40806862 / 1000000 ∧
    packet.longitude = -96681679 / 1000000 ∧
    serialState0.lat = 0 ∧ serialState0.lon = 0 ∧
    usbState0.packet = packet ∧
    usbState0.press = window0 ∧ usbState0.temp = window0 ∧ usbState0.ax = window0 ∧
    usbState0.ay = window0 ∧ usbState0.az = window0 ∧
    serialState0.ax = window0 ∧ serialState0.ay = window0 ∧ serialState0.az = window0 ∧
    window0.length = 200 ∧ window0.all (fun q => decide (q = 0)) = true := by
  refine ⟨rfl, rfl, rfl, rfl, rfl, rfl, rfl, rfl, rfl, rfl, rfl, rfl, rfl, rfl,
    rfl, rfl, rfl, rfl, rfl, rfl, rfl, rfl, rfl, ?_, ?_⟩
  · decide
  · decide

/-- C9, counterexample: the interleaving model of `update_data` contains an
observable intermediate state — right after the packet assignment, before any
window append — whose sample is already the new packet while all five windows
still hold their previous contents: a torn state, so the replace does not
appear atomic to a reader scheduled there. -/
theorem C9_counterexample :
    { usbState0 with packet := packetC9 } ∈ observableStates usbState0 packetC9 ∧
    packetC9 ≠ usbState0.packet ∧
    ({ usbState0 with packet := packetC9 }).press = usbState0.press ∧
    ({ usbState0 with packet := packetC9 }).temp = usbState0.temp ∧
    ({ usbState0 with packet := packetC9 }).ax = usbState0.ax ∧
    ({ usbState0 with packet := packetC9 }).ay = usbState0.ay ∧
    ({ usbState0 with packet := packetC9 }).az = usbState0.az := by
  refine ⟨List.Mem.tail _ (List.Mem.head _), fun h => ?_, rfl, rfl, rfl, rfl, rfl⟩
  have h0 := congrArg Packet.altitude h
  simp only at h0
  exact absurd h0 (by decide)

set_option maxRecDepth 8000 in
/-- C9, amended: the replace is a sequence of individually atomic mutations,
not one atomic unit: from any state, the torn state carrying the new packet
and the untouched windows is observable mid-sequence, while the composition
of the whole sequence equals the complete replace. -/
theorem C9_amended (st : UsbState) (p : Packet) :
    { st with packet := p } ∈ observableStates st p ∧
    List.foldl (fun s f => f s) st (usbAtomicSteps p) = usbApply st p :=
  ⟨List.Mem.tail _ (List.Mem.head _), rfl⟩

/-- C10: every window list has length exactly 200 at all times: both
dashboards start from 200 zero entries, and after any sequence of poll-loop
ticks every reachable state still has all its window lengths exactly 200. -/
theorem C10_window_length_invariant :
    (∀ acqs : List (Option (List Char)),
      (serialRun serialState0 acqs).ax.length = 200 ∧
      (serialRun serialState0 acqs).ay.length = 200 ∧
      (serialRun serialState0 acqs).az.length = 200) ∧
    (∀ acqs : List (Option (List ℕ)),
      (usbRun usbState0 acqs).press.length = 200 ∧
      (usbRun usbState0 acqs).temp.length = 200 ∧
      (usbRun usbState0 acqs).ax.length = 200 ∧
      (usbRun usbState0 acqs).ay.length = 200 ∧
      (usbRun usbState0 acqs).az.length = 200) :=
  ⟨fun acqs => serialRun_window_lengths acqs serialState0
      window0_length window0_length window0_length,
   fun acqs => usbRun_window_lengths acqs usbState0
      window0_length window0_length window0_length window0_length window0_length⟩
